import Mathlib

/-!
Shallow embedding of the BuildingsRiskAssesment backend
(src/backend/models.py, src/backend/risk_assessment.py, src/backend/app.py,
src/backend/prompts/registry.py) together with theorems settling the
specification claims about it.

The LLM provider is an external collaborator: each category assessment's
LLM-call-and-parse outcome is modelled as an input of type
`Except String (List ParsedFactor)` (`.error e` = the invocation or the
structured-output parse raised with message `e`; `.ok fs` = the parse
produced the factor list `fs`, in which individual JSON fields may still
be absent).  Python's `round` builtin rounds halves to the nearest even
integer; the means computed by the code are exact halves or non-halves at
binary-float granularity for all realistic list lengths, so it is embedded
as exact rational rounding (`pyRound`) on numerator/denominator.
-/

/-- models.py lines 5-9: the `RiskLevel(str, Enum)` with four members. -/
inductive RiskLevel where
  | NO_RISK
  | LOW
  | MEDIUM
  | HIGH
deriving DecidableEq, Repr

/-- The string value each `RiskLevel` member carries (models.py lines 6-9). -/
def RiskLevel.toString : RiskLevel → String
  | .NO_RISK => "No Risk"
  | .LOW => "Low"
  | .MEDIUM => "Medium"
  | .HIGH => "High"

/-- Pydantic validation of a string against the `RiskLevel` enum:
succeeds exactly on the four member values, otherwise raises
(modelled as `none`). -/
def RiskLevel.ofString? (s : String) : Option RiskLevel :=
  if s = "No Risk" then some .NO_RISK
  else if s = "Low" then some .LOW
  else if s = "Medium" then some .MEDIUM
  else if s = "High" then some .HIGH
  else none

/-- models.py lines 18-21: `RiskFactor`. -/
structure RiskFactor where
  category : String
  risk_level : RiskLevel
  description : String
deriving DecidableEq, Repr

/-- models.py lines 32-35: `RiskCategory`. -/
structure RiskCategory where
  category_name : String
  category_risk_level : RiskLevel
  risk_factors : List RiskFactor
deriving DecidableEq, Repr

/-- models.py lines 11-16: `PropertyData`.  Note that the model defines
no `missingSafetyFeatures` field. -/
structure PropertyData where
  propertyAge : Int
  numberOfUnits : Int
  constructionType : String
  safetyFeatures : List String
  location : Option String
deriving DecidableEq, Repr

/-- The field names declared by `models.PropertyData` (models.py lines
11-16); Python attribute access on any other name raises
`AttributeError`. -/
def propertyDataFieldNames : List String :=
  ["propertyAge", "numberOfUnits", "constructionType", "safetyFeatures", "location"]

/-- risk_assessment.py lines 281 and 330:
`risk_levels = ("No Risk": 0, "Low": 1, "Medium": 2, "High": 3)`, accessed
as `risk_levels.get(x, 0)` — lookup with default 0. -/
def risk_levels_get (s : String) : Nat :=
  if s = "No Risk" then 0
  else if s = "Low" then 1
  else if s = "Medium" then 2
  else if s = "High" then 3
  else 0

/-- `list(risk_levels.keys())` — Python dicts preserve insertion order. -/
def risk_level_keys : List String :=
  ["No Risk", "Low", "Medium", "High"]

/-- Python's `round(total / count)` on the exact rational `total / count`:
round to the nearest integer, halves to the even neighbour. -/
def pyRound (total count : Nat) : Nat :=
  if 2 * (total % count) < count then total / count
  else if count < 2 * (total % count) then total / count + 1
  else if total / count % 2 = 0 then total / count else total / count + 1

/-- One element of the `risk_factors` list of the parsed structured output
(a JSON object whose three expected fields may each be absent). -/
structure ParsedFactor where
  category : Option String
  risk_level : Option String
  description : Option String
deriving DecidableEq, Repr

/-- risk_assessment.py line 277: `all(k in factor for k in ("category",
"risk_level", "description"))`. -/
def ParsedFactor.hasRequiredFields (f : ParsedFactor) : Bool :=
  f.category.isSome && f.risk_level.isSome && f.description.isSome

/-- Pydantic coercion of one raw parsed factor into a `models.RiskFactor`
(performed by the `RiskCategory(...)` constructor at risk_assessment.py
lines 299-303): every field must be present and `risk_level` must be a
valid `RiskLevel` value, otherwise a `ValidationError` is raised
(modelled as `none`). -/
def validateRiskFactor (f : ParsedFactor) : Option RiskFactor :=
  match f.category, f.description, RiskLevel.ofString? (f.risk_level.getD "") with
  | some c, some d, some lv => some ⟨c, lv, d⟩
  | _, _, _ => none

/-- Pydantic coercion of the whole raw `risk_factors` list. -/
def validateFactors : List ParsedFactor → Option (List RiskFactor)
  | [] => some []
  | f :: fs =>
    match validateRiskFactor f, validateFactors fs with
    | some r, some rs => some (r :: rs)
    | _, _ => none

/-- risk_assessment.py lines 307-315: the fallback `RiskCategory`
constructed by the `except` handler of `assess_property_category`. -/
def fallbackCategory (category_name err : String) : RiskCategory :=
  { category_name := category_name
    category_risk_level := .MEDIUM
    risk_factors := [{ category := "Error in " ++ category_name ++ " Assessment"
                       risk_level := .MEDIUM
                       description :=
                         "Unable to generate detailed assessment for this category. Error: "
                           ++ err }] }

/-- risk_assessment.py lines 65-315, `assess_property_category`, after the
LLM call and structured-output parse (whose outcome is the `llm_result`
argument).  Inside the `try` block: the field-presence check (lines
276-278), the rank sum over `risk_levels.get(factor["risk_level"], 0)`
(lines 285-290), `avg_risk = round(total_risk / factor_count) if
factor_count > 0 else 0` (line 293), indexing
`list(risk_levels.keys())[avg_risk]` (line 296, `IndexError` if out of
range), and the pydantic `RiskCategory(...)` construction (lines 299-303).
Any raise inside the block lands in the `except` handler, which returns
`fallbackCategory`. -/
def assess_property_category (category_name : String)
    (llm_result : Except String (List ParsedFactor)) : RiskCategory :=
  match llm_result with
  | .error e => fallbackCategory category_name e
  | .ok parsed_factors =>
    if parsed_factors.all ParsedFactor.hasRequiredFields then
      let total_risk := (parsed_factors.map
        (fun f => risk_levels_get (f.risk_level.getD ""))).sum
      let factor_count := parsed_factors.length
      let avg_risk := if factor_count > 0 then pyRound total_risk factor_count else 0
      match risk_level_keys.get? avg_risk with
      | none => fallbackCategory category_name "IndexError: list index out of range"
      | some key =>
        match RiskLevel.ofString? key, validateFactors parsed_factors with
        | some category_risk_level, some risk_factors =>
          { category_name := category_name
            category_risk_level := category_risk_level
            risk_factors := risk_factors }
        | _, _ =>
          fallbackCategory category_name
            ("Missing required fields in risk factor for " ++ category_name)
    else
      fallbackCategory category_name
        ("Missing required fields in risk factor for " ++ category_name)

/-- The dict returned by `get_risk_assessment` (risk_assessment.py lines
348-351). -/
structure RiskAssessmentOut where
  overall_risk_level : String
  categories : List RiskCategory
deriving DecidableEq, Repr

/-- risk_assessment.py lines 330-344: the coordinator's overall
aggregation over the completed category results —
`risk_levels.get(category.category_risk_level, 0)` summed (the str-enum
member compares equal to its string value), `round(total_risk /
category_count) if category_count > 0 else 0`, then
`list(risk_levels.keys())[avg_risk]` (`none` = `IndexError`). -/
def aggregate_overall (category_results : List RiskCategory) : Option String :=
  let total_risk := (category_results.map
    (fun c => risk_levels_get c.category_risk_level.toString)).sum
  let category_count := category_results.length
  let avg_risk := if category_count > 0 then pyRound total_risk category_count else 0
  risk_level_keys.get? avg_risk

/-- risk_assessment.py lines 317-351, `get_risk_assessment`: gathers the
three category assessments (their LLM outcomes are the three arguments,
in the fixed category order of line 323) and aggregates; an `IndexError`
in the aggregation would propagate (`.error`), there is no `try` here. -/
def get_risk_assessment (oPA oLF oLR : Except String (List ParsedFactor)) :
    Except String RiskAssessmentOut :=
  let category_results := [assess_property_category "Property Assessment" oPA,
                           assess_property_category "Location Factors" oLF,
                           assess_property_category "Liability Risks" oLR]
  match aggregate_overall category_results with
  | some overall_risk_level => .ok ⟨overall_risk_level, category_results⟩
  | none => .error "IndexError: list index out of range"

/-- risk_assessment.py line 235:
`", ".join(property_data.safetyFeatures) if property_data.safetyFeatures else "None"`. -/
def safety_features_str (fs : List String) : String :=
  if fs = [] then "None" else String.intercalate ", " fs

/-- risk_assessment.py line 236's expression, over the spec's data model
(§3: optional `missingSafetyFeatures`).  `models.PropertyData` itself
defines no such field, so on an actual `PropertyData` the attribute read
raises `AttributeError` before this expression can produce a value. -/
def missing_safety_features_str (msf : Option (List String)) : String :=
  match msf with
  | none => "None"
  | some fs => if fs = [] then "None" else String.intercalate ", " fs

/-- risk_assessment.py line 237:
`property_data.location if property_data.location else "Not specified"`
(Python falsiness: `None` and `""` both yield the default). -/
def location_str (loc : Option String) : String :=
  match loc with
  | none => "Not specified"
  | some s => if s = "" then "Not specified" else s

/-- prompts/base.py lines 16-31: `BasePromptTemplate`.  The multi-kilobyte
prompt text bodies carry no behaviour any claim depends on, so each
instance below abbreviates them to a short identifying string; the
`input_variables` lists are verbatim from the source. -/
structure BasePromptTemplate where
  system_prompt : String
  user_prompt_template : String
  system_input_variables : List String
  user_input_variables : List String
deriving DecidableEq, Repr

/-- prompts/property_assessment.py lines 11-63. -/
def propertyAssessmentPrompt : BasePromptTemplate :=
  { system_prompt := "You are a professional property risk assessor ..."
    user_prompt_template := "Analyze the PROPERTY ASSESSMENT risks ..."
    system_input_variables := ["format_instructions"]
    user_input_variables := ["property_age", "number_of_units", "construction_type",
                             "safety_features", "missing_safety_features"] }

/-- prompts/location_factors.py lines 11-113. -/
def locationFactorsPrompt : BasePromptTemplate :=
  { system_prompt := "You are a professional location risk assessor ..."
    user_prompt_template := "Analyze the LOCATION FACTORS risks ..."
    system_input_variables := ["format_instructions"]
    user_input_variables := ["location", "number_of_units", "property_age",
                             "construction_type"] }

/-- prompts/liability_risks.py lines 11-66. -/
def liabilityRisksPrompt : BasePromptTemplate :=
  { system_prompt := "You are a professional liability risk assessor ..."
    user_prompt_template := "Analyze the LIABILITY RISKS ..."
    system_input_variables := ["format_instructions"]
    user_input_variables := ["property_age", "number_of_units", "construction_type",
                             "safety_features", "missing_safety_features", "location"] }

/-- prompts/registry.py lines 27-31: the `_templates` dict. -/
def PromptRegistry_templates : List (String × BasePromptTemplate) :=
  [("Property Assessment", propertyAssessmentPrompt),
   ("Location Factors", locationFactorsPrompt),
   ("Liability Risks", liabilityRisksPrompt)]

/-- prompts/registry.py lines 45-56: `get_template` is
`self._templates.get(category)` — dict lookup returning `None` when the
key is absent; it raises nothing. -/
def PromptRegistry_get_template (category : String) : Option BasePromptTemplate :=
  PromptRegistry_templates.lookup category

/-! ### Claim-side (specification-language) definitions

These follow the spec's words ("map each factor's risk_level to its rank
(0-3; unrecognized strings default to rank 0), take the arithmetic mean
over all factors, round to nearest integer, map the rounded rank back to
its label") and are compared with the functions embedded from the
source above. -/

/-- Spec rank table: No Risk=0, Low=1, Medium=2, High=3, any
unrecognized label ranks 0. -/
def specRankOfLabel (s : String) : Nat :=
  if s = "No Risk" then 0
  else if s = "Low" then 1
  else if s = "Medium" then 2
  else if s = "High" then 3
  else 0

/-- Spec mapping of a (rounded) rank back to its label. -/
def specLabelOfRank (r : Nat) : String :=
  if r = 0 then "No Risk"
  else if r = 1 then "Low"
  else if r = 2 then "Medium"
  else "High"

/-- Nearest integer to `num / den`, halves rounded up: equals "round to
the nearest integer" whenever `num / den` is not an exact half. -/
def specRoundNearest (num den : Nat) : Nat :=
  (2 * num + den) / (2 * den)

/-- Nearest integer to `num / den`, an exact half going to the even
neighbour (the documented tie-breaking choice, matching Python `round`). -/
def specRoundHalfEven (num den : Nat) : Nat :=
  if 2 * (num % den) = den then
    (if num / den % 2 = 0 then num / den else num / den + 1)
  else specRoundNearest num den

/-- Claim C2's procedure applied to a raw parsed factor list: rank each
factor's risk_level string (absent field reads as no recognized label,
rank 0), average, round half-to-even, map back to a label. -/
def specCategoryLevel (factors : List ParsedFactor) : String :=
  specLabelOfRank
    (specRoundHalfEven ((factors.map (fun f => specRankOfLabel (f.risk_level.getD ""))).sum)
      factors.length)

/-! ### Concrete sample inputs used by witnesses and counterexamples -/

/-- A well-formed parsed factor with risk_level "Low". -/
def lowFactor : ParsedFactor :=
  ⟨some "Sample Aspect", some "Low", some "a low risk"⟩

/-- A well-formed parsed factor with risk_level "Medium". -/
def mediumFactor : ParsedFactor :=
  ⟨some "Sample Aspect", some "Medium", some "a medium risk"⟩

/-- A well-formed parsed factor with risk_level "High". -/
def highFactor : ParsedFactor :=
  ⟨some "Sample Aspect", some "High", some "a high risk"⟩

/-- An LLM outcome whose parse produced a single "High" factor. -/
def allHighOutcome : Except String (List ParsedFactor) :=
  .ok [highFactor]

/-- A parsed factor whose risk_level string is not one of the four
`RiskLevel` values. -/
def unknownLevelFactor : ParsedFactor :=
  ⟨some "Sample Aspect", some "Unknown", some "a mystery risk"⟩

/-- The concrete property of spec §8's scenario (fields of
`models.PropertyData`). -/
def highRiskProperty : PropertyData :=
  ⟨45, 12, "Wood Frame", ["Smoke Detectors"], some "Miami, FL"⟩

/-- A concrete high-risk category result. -/
def sampleHighCategory : RiskCategory :=
  ⟨"Property Assessment", .HIGH, [⟨"Building Age", .HIGH, "aging systems"⟩]⟩

/-- A concrete low-risk category result. -/
def sampleLowCategory : RiskCategory :=
  ⟨"Location Factors", .LOW, [⟨"Neighborhood Safety", .LOW, "stable area"⟩]⟩

/-- A concrete medium-risk category result. -/
def sampleMediumCategory : RiskCategory :=
  ⟨"Liability Risks", .MEDIUM, [⟨"Tenant Safety", .MEDIUM, "common areas"⟩]⟩

deriving instance DecidableEq for Except

/-- app.py lines 23-80: the hardcoded response body built by the
`/api/assess` handler. -/
def mock_risk_assessment : RiskAssessmentOut :=
  { overall_risk_level := "Medium"
    categories :=
      [{ category_name := "Property Assessment"
         category_risk_level := .MEDIUM
         risk_factors :=
           [⟨"Building Age", .HIGH,
             "The property's age suggests potential issues with electrical systems and plumbing."⟩,
            ⟨"Construction Materials", .LOW,
             "The construction materials used are generally resistant to common hazards."⟩,
            ⟨"Safety Features", .MEDIUM,
             "Some essential safety features are present, but additional measures could improve overall safety."⟩] },
       { category_name := "Location Factors"
         category_risk_level := .LOW
         risk_factors :=
           [⟨"Natural Disasters", .NO_RISK,
             "The property is located in an area with low natural disaster probability."⟩,
            ⟨"Neighborhood Safety", .LOW,
             "The neighborhood has a relatively low crime rate and good emergency services access."⟩] },
       { category_name := "Liability Risks"
         category_risk_level := .MEDIUM
         risk_factors :=
           [⟨"Tenant Safety", .MEDIUM,
             "Some potential liability concerns related to common areas and facility maintenance."⟩,
            ⟨"Regulatory Compliance", .LOW,
             "The property appears to meet most regulatory requirements with minor improvements needed."⟩] }] }

/-- app.py lines 19-82, the `POST /api/assess` handler `assess_property`:
it ignores its `property_data` argument and returns the hardcoded mock
body; it never imports or calls `get_risk_assessment`. -/
def assess_property (property_data : PropertyData) : RiskAssessmentOut :=
  mock_risk_assessment

/-! ### Claim theorems -/

/-- C5 counterexample: the claim says `get_template` raises for an
unknown category rather than returning a not-found value; the embedded
`PromptRegistry.get_template` (a total function — it raises nothing)
returns the not-found value `none` on the unknown category
"Bogus Category". -/
theorem get_template_unknown_counterexample :
    PromptRegistry_get_template "Bogus Category" = none := by decide

/-- C5 (amended): for every category name other than the three registered
ones, `get_template` silently returns the not-found value `none` (per its
own docstring); it does not raise. -/
theorem get_template_unknown_returns_none (category : String)
    (h1 : category ≠ "Property Assessment")
    (h2 : category ≠ "Location Factors")
    (h3 : category ≠ "Liability Risks") :
    PromptRegistry_get_template category = none := by
  have e1 : (category == "Property Assessment") = false := beq_eq_false_iff_ne.mpr h1
  have e2 : (category == "Location Factors") = false := beq_eq_false_iff_ne.mpr h2
  have e3 : (category == "Liability Risks") = false := beq_eq_false_iff_ne.mpr h3
  simp [PromptRegistry_get_template, PromptRegistry_templates, List.lookup, e1, e2, e3]

/-- Witness for C5's amended theorem at the concrete unknown category
"Structural Integrity". -/
theorem get_template_unknown_returns_none_witness :
    PromptRegistry_get_template "Structural Integrity" = none :=
  get_template_unknown_returns_none "Structural Integrity"
    (by decide) (by decide) (by decide)

/-- C6: the `/api/assess` handler's response is the hardcoded mock — it
is the same for every request body, its overall_risk_level is "Medium"
even for spec §8's high-risk property, while the coordinator
`get_risk_assessment` on all-"High" category outcomes yields overall
"High"; the endpoint's response is independent of the coordinator. -/
theorem endpoint_returns_mock_not_coordinator :
    (∀ p q : PropertyData, assess_property p = assess_property q) ∧
    (assess_property highRiskProperty).overall_risk_level = "Medium" ∧
    (get_risk_assessment allHighOutcome allHighOutcome allHighOutcome).map
      RiskAssessmentOut.overall_risk_level = .ok "High" :=
  ⟨fun _ _ => rfl, rfl, by decide⟩

/-- C7: `models.PropertyData` declares no `missingSafetyFeatures` field
(so the attribute read at risk_assessment.py line 236 — outside the
`try` block — raises `AttributeError` on every `PropertyData`), while
the substitution expressions themselves, over the spec's data model,
render an absent location as "Not specified" and an absent or empty
missingSafetyFeatures as "None", and join present sequences with
commas. -/
theorem missing_safety_features_rendering :
    "missingSafetyFeatures" ∉ propertyDataFieldNames ∧
    location_str none = "Not specified" ∧
    missing_safety_features_str none = "None" ∧
    missing_safety_features_str (some []) = "None" ∧
    missing_safety_features_str (some ["Sprinklers", "Fire Escapes"]) =
      "Sprinklers, Fire Escapes" := by
  refine ⟨by decide, rfl, rfl, by decide, by decide⟩

/-- C8 counterexample: a successfully parsed LLM response whose
`risk_factors` list is empty passes the field-presence check vacuously
and is returned as a `RiskCategory` with an empty `risk_factors`
sequence (and level "No Risk" from the `factor_count > 0` guard). -/
theorem empty_parse_gives_empty_factors :
    (assess_property_category "Property Assessment" (.ok [])).risk_factors = [] ∧
    (assess_property_category "Property Assessment" (.ok [])).category_risk_level =
      .NO_RISK := by
  exact ⟨by decide, by decide⟩

/-- C10: the category aggregation's rounding sends an exact half to the
even neighbour (Python `round` semantics): in general `pyRound` at a tie
picks the even candidate, and concretely a category of factors
lo Low, Medium (mean 1.5) and one of Medium, High (mean 2.5) both come
out as category_risk_level "Medium". -/
theorem category_rounding_is_half_to_even :
    (∀ total count : Nat, 0 < count → 2 * (total % count) = count →
      pyRound total count =
        (if total / count % 2 = 0 then total / count else total / count + 1)) ∧
    (assess_property_category "Property Assessment"
      (.ok [lowFactor, mediumFactor])).category_risk_level = .MEDIUM ∧
    (assess_property_category "Property Assessment"
      (.ok [mediumFactor, highFactor])).category_risk_level = .MEDIUM := by
  refine ⟨?_, by decide, by decide⟩
  intro total count hc htie
  unfold pyRound
  split_ifs <;> omega

/-- Witness for C10 at the concrete tie 3/2 (mean 1.5 rounds to the even
neighbour 2). -/
theorem category_rounding_is_half_to_even_witness :
    pyRound 3 2 = (if 3 / 2 % 2 = 0 then 3 / 2 else 3 / 2 + 1) :=
  category_rounding_is_half_to_even.1 3 2 (by decide) (by decide)

/-! ### Helper lemmas -/

theorem risk_levels_get_le_three (s : String) : risk_levels_get s ≤ 3 := by
  unfold risk_levels_get
  split_ifs <;> omega

theorem specRankOfLabel_eq_get (s : String) : specRankOfLabel s = risk_levels_get s := rfl

theorem list_sum_le_three (l : List Nat) (h : ∀ x ∈ l, x ≤ 3) :
    l.sum ≤ 3 * l.length := by
  induction l with
  | nil => simp
  | cons a as ih =>
    have ha : a ≤ 3 := h a (List.mem_cons_self a as)
    have has := ih (fun x hx => h x (List.mem_cons_of_mem a hx))
    simp only [List.sum_cons, List.length_cons]
    omega

theorem pyRound_le_three (total count : Nat) (hc : 0 < count) (ht : total ≤ 3 * count) :
    pyRound total count ≤ 3 := by
  have hdm : count * (total / count) + total % count = total := Nat.div_add_mod total count
  have hmul : count * (total / count) ≤ count * 3 := by
    have h1 : count * (total / count) ≤ total := Nat.le.intro hdm
    omega
  have hq : total / count ≤ 3 := Nat.le_of_mul_le_mul_left hmul hc
  have hq2 : total % count = 0 ∨ total / count ≤ 2 := by
    by_cases h : total / count = 3
    · rw [h] at hdm; left; omega
    · right; omega
  unfold pyRound
  split_ifs <;> omega

theorem risk_level_keys_get (k : Nat) (hk : k ≤ 3) :
    risk_level_keys.get? k = some (specLabelOfRank k) := by
  interval_cases k <;> rfl

theorem specLabelOfRank_mem (k : Nat) (hk : k ≤ 3) :
    specLabelOfRank k ∈ risk_level_keys := by
  interval_cases k <;> decide

theorem ofString_specLabel (k : Nat) (hk : k ≤ 3) :
    ∃ lv : RiskLevel, RiskLevel.ofString? (specLabelOfRank k) = some lv ∧
      lv.toString = specLabelOfRank k := by
  interval_cases k
  · exact ⟨.NO_RISK, by decide, by decide⟩
  · exact ⟨.LOW, by decide, by decide⟩
  · exact ⟨.MEDIUM, by decide, by decide⟩
  · exact ⟨.HIGH, by decide, by decide⟩

theorem pyRound_three (t : Nat) : pyRound t 3 = specRoundNearest t 3 := by
  unfold pyRound specRoundNearest
  split_ifs <;> omega

theorem pyRound_eq_specRoundHalfEven (total count : Nat) (hc : 0 < count) :
    pyRound total count = specRoundHalfEven total count := by
  have hmod : total % count < count := Nat.mod_lt total hc
  have key : (2 * total + count) / (2 * count) =
      total / count + (2 * (total % count) + count) / (2 * count) := by
    conv_lhs => rw [← Nat.div_add_mod total count]
    rw [show 2 * (count * (total / count) + total % count) + count =
        (2 * count) * (total / count) + (2 * (total % count) + count) by ring]
    rw [Nat.mul_add_div (by omega)]
  have subA : 2 * (total % count) < count →
      (2 * (total % count) + count) / (2 * count) = 0 := fun h =>
    Nat.div_eq_of_lt (by omega)
  have subB : count < 2 * (total % count) →
      (2 * (total % count) + count) / (2 * count) = 1 := by
    intro h
    exact Nat.div_eq_of_lt_le (by omega) (by omega)
  unfold pyRound specRoundHalfEven specRoundNearest
  rw [key]
  split_ifs <;> first
    | (rw [subA (by omega)])
    | (rw [subB (by omega)])
    | omega
  all_goals omega

theorem aggregate_overall_eq (cats : List RiskCategory) (hne : cats ≠ []) :
    aggregate_overall cats = some (specLabelOfRank (pyRound
      ((cats.map (fun c => risk_levels_get c.category_risk_level.toString)).sum)
      cats.length)) := by
  have hlen : 0 < cats.length := List.length_pos.mpr hne
  have hsum : (cats.map (fun c => risk_levels_get c.category_risk_level.toString)).sum ≤
      3 * cats.length := by
    have h := list_sum_le_three
      (cats.map (fun c => risk_levels_get c.category_risk_level.toString))
      (by
        intro x hx
        obtain ⟨c, _, rfl⟩ := List.mem_map.mp hx
        exact risk_levels_get_le_three _)
    simpa using h
  have havg := pyRound_le_three _ _ hlen hsum
  simp only [aggregate_overall, List.length_map]
  rw [if_pos hlen]
  exact risk_level_keys_get _ havg

theorem get_risk_assessment_eq (oPA oLF oLR : Except String (List ParsedFactor)) :
    get_risk_assessment oPA oLF oLR = .ok
      { overall_risk_level := specLabelOfRank (pyRound
          (([assess_property_category "Property Assessment" oPA,
             assess_property_category "Location Factors" oLF,
             assess_property_category "Liability Risks" oLR].map
            (fun c => risk_levels_get c.category_risk_level.toString)).sum) 3)
        categories := [assess_property_category "Property Assessment" oPA,
                       assess_property_category "Location Factors" oLF,
                       assess_property_category "Liability Risks" oLR] } := by
  simp only [get_risk_assessment]
  rw [aggregate_overall_eq _ (by simp)]
  rfl

/-- C1: every result of the coordinator `get_risk_assessment` carries as
overall_risk_level the label obtained by ranking the three categories'
levels (No Risk=0, Low=1, Medium=2, High=3, unrecognized 0), averaging,
rounding to the nearest integer (a tie is impossible over 3 categories,
so nearest-with-halves-up coincides with Python's rounding), and mapping
the rounded rank back to its label; in particular all-"High" categories
give overall "High". -/
theorem overall_is_rounded_mean_of_category_ranks :
    (∀ oPA oLF oLR r, get_risk_assessment oPA oLF oLR = .ok r →
      r.overall_risk_level = specLabelOfRank (specRoundNearest
        ((r.categories.map (fun c => specRankOfLabel c.category_risk_level.toString)).sum)
        r.categories.length)) ∧
    (∀ r, get_risk_assessment allHighOutcome allHighOutcome allHighOutcome = .ok r →
      (∀ c ∈ r.categories, c.category_risk_level = .HIGH) ∧
        r.overall_risk_level = "High") := by
  constructor
  · intro oPA oLF oLR r h
    rw [get_risk_assessment_eq] at h
    injection h with h'
    subst h'
    simp only [List.length_cons, List.length_nil]
    rw [pyRound_three]
    rfl
  · intro r h
    rw [get_risk_assessment_eq] at h
    injection h with h'
    subst h'
    exact ⟨by decide, by decide⟩

/-- Witness for C1 at outcomes making all three categories "High": the
overall level is "High" and matches the claim's formula. -/
theorem overall_is_rounded_mean_of_category_ranks_witness :
    ∃ r, get_risk_assessment allHighOutcome allHighOutcome allHighOutcome = .ok r ∧
      r.overall_risk_level = specLabelOfRank (specRoundNearest
        ((r.categories.map (fun c => specRankOfLabel c.category_risk_level.toString)).sum)
        r.categories.length) ∧
      r.overall_risk_level = "High" := by
  refine ⟨_, get_risk_assessment_eq _ _ _, ?_, ?_⟩
  · exact overall_is_rounded_mean_of_category_ranks.1 _ _ _ _ (get_risk_assessment_eq _ _ _)
  · exact (overall_is_rounded_mean_of_category_ranks.2 _ (get_risk_assessment_eq _ _ _)).2

/-- C3: an LLM/parse failure (`.error`), or a parsed factor missing a
required field, never propagates: the assessor returns the fallback
category with level "Medium" and exactly one factor whose category field
is "Error in <name> Assessment" and whose risk_level is "Medium"; and the
coordinator's result still contains exactly 3 categories. -/
theorem llm_failure_isolated_to_fallback :
    (∀ category_name e,
      (assess_property_category category_name (.error e)).category_risk_level = .MEDIUM ∧
      ∃ d, (assess_property_category category_name (.error e)).risk_factors =
        [⟨"Error in " ++ category_name ++ " Assessment", .MEDIUM, d⟩]) ∧
    (∀ category_name factors f, f ∈ factors → f.hasRequiredFields = false →
      (assess_property_category category_name (.ok factors)).category_risk_level = .MEDIUM ∧
      ∃ d, (assess_property_category category_name (.ok factors)).risk_factors =
        [⟨"Error in " ++ category_name ++ " Assessment", .MEDIUM, d⟩]) ∧
    (∀ oPA oLF oLR r, get_risk_assessment oPA oLF oLR = .ok r →
      r.categories.length = 3) := by
  refine ⟨?_, ?_, ?_⟩
  · intro name e
    exact ⟨rfl, _, rfl⟩
  · intro name factors f hf hff
    have hall : factors.all ParsedFactor.hasRequiredFields = false := by
      cases hall : factors.all ParsedFactor.hasRequiredFields with
      | false => rfl
      | true =>
        have := List.all_eq_true.mp hall f hf
        rw [hff] at this
        cases this
    constructor
    · simp [assess_property_category, hall, fallbackCategory]
    · exact ⟨"Unable to generate detailed assessment for this category. Error: " ++
        ("Missing required fields in risk factor for " ++ name),
        by simp [assess_property_category, hall, fallbackCategory]⟩
  · intro oPA oLF oLR r h
    rw [get_risk_assessment_eq] at h
    injection h with h'
    subst h'
    rfl

/-- Witness for C3 at a concrete provider failure and a concrete factor
missing its description field. -/
theorem llm_failure_isolated_to_fallback_witness :
    ((assess_property_category "Location Factors"
        (.error "APIConnectionError")).category_risk_level = .MEDIUM ∧
      ∃ d, (assess_property_category "Location Factors"
        (.error "APIConnectionError")).risk_factors =
          [⟨"Error in Location Factors Assessment", .MEDIUM, d⟩]) ∧
    ((assess_property_category "Liability Risks"
        (.ok [⟨some "Tenant Safety", some "High", none⟩])).category_risk_level = .MEDIUM) ∧
    (∀ r, get_risk_assessment (.error "a") (.error "b") (.error "c") = .ok r →
      r.categories.length = 3) := by
  refine ⟨?_, ?_, ?_⟩
  · have h := llm_failure_isolated_to_fallback.1 "Location Factors" "APIConnectionError"
    exact ⟨h.1, h.2⟩
  · exact (llm_failure_isolated_to_fallback.2.1 "Liability Risks"
      [⟨some "Tenant Safety", some "High", none⟩] ⟨some "Tenant Safety", some "High", none⟩
      (by decide) (by decide)).1
  · intro r h
    exact llm_failure_isolated_to_fallback.2.2 _ _ _ r h

/-- C4: for every non-empty sequence of ranks in 0..3 the rounded mean is
in 0..3, indexing `risk_level_keys` with it is in range and yields one of
the four labels; the coordinator's aggregation therefore always
completes with a result (never an `IndexError`). -/
theorem rounded_mean_never_out_of_range (ranks : List Nat) (hne : ranks ≠ [])
    (hb : ∀ x ∈ ranks, x ≤ 3) :
    pyRound ranks.sum ranks.length ≤ 3 ∧
    (∃ lbl, risk_level_keys.get? (pyRound ranks.sum ranks.length) = some lbl ∧
      lbl ∈ risk_level_keys) ∧
    (∀ oPA oLF oLR, ∃ res, get_risk_assessment oPA oLF oLR = .ok res) := by
  have hlen : 0 < ranks.length := List.length_pos.mpr hne
  have havg := pyRound_le_three _ _ hlen (list_sum_le_three ranks hb)
  refine ⟨havg, ⟨specLabelOfRank _, risk_level_keys_get _ havg,
    specLabelOfRank_mem _ havg⟩, ?_⟩
  intro oPA oLF oLR
  exact ⟨_, get_risk_assessment_eq oPA oLF oLR⟩

/-- Witness for C4 at the all-High rank sequence [3, 3, 3]. -/
theorem rounded_mean_never_out_of_range_witness :
    pyRound ([3, 3, 3] : List Nat).sum ([3, 3, 3] : List Nat).length ≤ 3 ∧
    (∃ lbl, risk_level_keys.get? (pyRound ([3, 3, 3] : List Nat).sum
        ([3, 3, 3] : List Nat).length) = some lbl ∧
      lbl ∈ risk_level_keys) ∧
    (∀ oPA oLF oLR, ∃ res, get_risk_assessment oPA oLF oLR = .ok res) :=
  rounded_mean_never_out_of_range [3, 3, 3] (by decide) (by decide)

/-- C9: the coordinator's overall aggregation `aggregate_overall` is
order-independent — any permutation of the category results yields the
same overall_risk_level. -/
theorem aggregation_order_independent (cs1 cs2 : List RiskCategory)
    (h : cs1.Perm cs2) :
    aggregate_overall cs1 = aggregate_overall cs2 := by
  simp only [aggregate_overall]
  rw [h.length_eq,
    (h.map (fun c => risk_levels_get c.category_risk_level.toString)).sum_eq]

/-- Witness for C9: swapping the first two of three concrete category
results leaves the overall label unchanged. -/
theorem aggregation_order_independent_witness :
    aggregate_overall [sampleLowCategory, sampleHighCategory, sampleMediumCategory] =
      aggregate_overall [sampleHighCategory, sampleLowCategory, sampleMediumCategory] :=
  aggregation_order_independent _ _
    (List.Perm.swap sampleHighCategory sampleLowCategory [sampleMediumCategory])

theorem validateFactors_length (fs : List ParsedFactor) (rs : List RiskFactor)
    (h : validateFactors fs = some rs) : rs.length = fs.length := by
  induction fs generalizing rs with
  | nil =>
    simp only [validateFactors, Option.some.injEq] at h
    subst h
    rfl
  | cons f fs ih =>
    simp only [validateFactors] at h
    cases hf : validateRiskFactor f with
    | none => rw [hf] at h; cases h
    | some r =>
      cases hrest : validateFactors fs with
      | none => rw [hf, hrest] at h; cases h
      | some rs' =>
        rw [hf, hrest] at h
        injection h with h'
        subst h'
        simp [ih rs' hrest]

theorem validateRiskFactor_isSome (f : ParsedFactor)
    (h1 : f.hasRequiredFields = true)
    (h2 : f.risk_level.getD "" ∈ risk_level_keys) :
    (validateRiskFactor f).isSome = true := by
  unfold ParsedFactor.hasRequiredFields at h1
  simp only [Bool.and_eq_true, Option.isSome_iff_exists] at h1
  obtain ⟨⟨⟨c, hc⟩, -⟩, d, hd⟩ := h1
  have hof : ∃ lv, RiskLevel.ofString? (f.risk_level.getD "") = some lv := by
    simp only [risk_level_keys, List.mem_cons, List.not_mem_nil, or_false] at h2
    rcases h2 with h | h | h | h <;> rw [h] <;> simp [RiskLevel.ofString?]
  obtain ⟨lv, hlv⟩ := hof
  unfold validateRiskFactor
  rw [hc, hd, hlv]
  rfl

theorem validateFactors_isSome (fs : List ParsedFactor)
    (h : ∀ f ∈ fs, (validateRiskFactor f).isSome = true) :
    ∃ rs, validateFactors fs = some rs := by
  induction fs with
  | nil => exact ⟨[], rfl⟩
  | cons f fs ih =>
    obtain ⟨r, hr⟩ := Option.isSome_iff_exists.mp (h f (List.mem_cons_self f fs))
    obtain ⟨rs, hrs⟩ := ih (fun g hg => h g (List.mem_cons_of_mem f hg))
    exact ⟨r :: rs, by simp [validateFactors, hr, hrs]⟩

/-- C2 counterexample: a single parsed factor whose risk_level string is
"Unknown".  The claim's procedure ranks it 0 (unrecognized defaults to
rank 0), so predicts category_risk_level "No Risk"; the code instead
raises a pydantic `ValidationError` constructing the `RiskCategory`
(risk_level is not a valid `RiskLevel` member) and returns the "Medium"
error fallback. -/
theorem category_level_unrecognized_counterexample :
    (assess_property_category "Property Assessment"
        (.ok [unknownLevelFactor])).category_risk_level.toString ≠
      specCategoryLevel [unknownLevelFactor] ∧
    (assess_property_category "Property Assessment"
        (.ok [unknownLevelFactor])).category_risk_level = .MEDIUM ∧
    specCategoryLevel [unknownLevelFactor] = "No Risk" := by
  exact ⟨by decide, by decide, by decide⟩

/-- C2 (amended): for every non-empty list of parsed factors each
carrying all three fields and a recognized risk_level label, the
assessor's category_risk_level is the label of the half-to-even-rounded
arithmetic mean of the factors' ranks.  (A factor with an unrecognized
risk_level string instead triggers the "Medium" error fallback, because
the `RiskFactor` model validation rejects it.) -/
theorem category_level_is_rounded_mean (category_name : String)
    (factors : List ParsedFactor) (hne : factors ≠ [])
    (hv : ∀ f ∈ factors, f.hasRequiredFields = true ∧
      f.risk_level.getD "" ∈ risk_level_keys) :
    (assess_property_category category_name (.ok factors)).category_risk_level.toString =
      specCategoryLevel factors := by
  have hall : factors.all ParsedFactor.hasRequiredFields = true :=
    List.all_eq_true.mpr (fun f hf => (hv f hf).1)
  have hlen : 0 < factors.length := List.length_pos.mpr hne
  have hsum : (factors.map (fun f => risk_levels_get (f.risk_level.getD ""))).sum ≤
      3 * factors.length := by
    have h := list_sum_le_three
      (factors.map (fun f => risk_levels_get (f.risk_level.getD "")))
      (by
        intro x hx
        obtain ⟨g, _, rfl⟩ := List.mem_map.mp hx
        exact risk_levels_get_le_three _)
    simpa using h
  have havg := pyRound_le_three _ _ hlen hsum
  obtain ⟨lv, hof, hlv⟩ := ofString_specLabel _ havg
  obtain ⟨rs, hrs⟩ := validateFactors_isSome factors
    (fun f hf => validateRiskFactor_isSome f (hv f hf).1 (hv f hf).2)
  simp only [assess_property_category, hall, if_true]
  rw [if_pos hlen, risk_level_keys_get _ havg]
  simp only [hof, hrs]
  show lv.toString = specCategoryLevel factors
  rw [hlv]
  unfold specCategoryLevel
  rw [← pyRound_eq_specRoundHalfEven _ _ hlen]
  rfl

/-- Witness for C2's amended theorem at the two-factor list
[Low, Medium]: the rounded mean (1.5, half to even) is rank 2,
"Medium". -/
theorem category_level_is_rounded_mean_witness :
    (assess_property_category "Property Assessment"
        (.ok [lowFactor, mediumFactor])).category_risk_level.toString =
      specCategoryLevel [lowFactor, mediumFactor] :=
  category_level_is_rounded_mean "Property Assessment" [lowFactor, mediumFactor]
    (by decide) (by decide)

theorem assess_ok_cases (category_name : String) (fs : List ParsedFactor) :
    (∃ e, assess_property_category category_name (.ok fs) =
      fallbackCategory category_name e) ∨
    (∃ lv rs, validateFactors fs = some rs ∧
      assess_property_category category_name (.ok fs) = ⟨category_name, lv, rs⟩) := by
  simp only [assess_property_category]
  split
  · split
    · exact .inl ⟨_, rfl⟩
    · split
      · rename_i lv rs h1 h2
        exact .inr ⟨lv, rs, h2, rfl⟩
      · exact .inl ⟨_, rfl⟩
  · exact .inl ⟨_, rfl⟩

/-- C8 (amended): every `RiskCategory` the assessor produces from a
failure outcome or from a parsed response with at least one factor has a
non-empty risk_factors sequence; only a successfully parsed response
whose factor list is itself empty yields an empty one. -/
theorem risk_factors_nonempty_unless_empty_parse (category_name : String)
    (llm_result : Except String (List ParsedFactor))
    (h : ∀ fs, llm_result = .ok fs → fs ≠ []) :
    (assess_property_category category_name llm_result).risk_factors ≠ [] := by
  cases llm_result with
  | error e => simp [assess_property_category, fallbackCategory]
  | ok fs =>
    have hne : fs ≠ [] := h fs rfl
    rcases assess_ok_cases category_name fs with ⟨e, he⟩ | ⟨lv, rs, hval, he⟩
    · rw [he]
      simp [fallbackCategory]
    · rw [he]
      intro hcon
      have hlenq := validateFactors_length fs rs hval
      rw [show (RiskCategory.mk category_name lv rs).risk_factors = rs from rfl] at hcon
      subst hcon
      exact hne (List.length_eq_zero.mp hlenq.symm)

/-- Witness for C8's amended theorem at a failure outcome and (via the
hypothesis) a non-empty parse. -/
theorem risk_factors_nonempty_unless_empty_parse_witness :
    (assess_property_category "Property Assessment"
      (.ok [highFactor])).risk_factors ≠ [] :=
  risk_factors_nonempty_unless_empty_parse "Property Assessment" (.ok [highFactor])
    (fun fs hfs => by injection hfs with h; rw [← h]; decide)
